import Mathlib

/-!
Verification of the ALFWorld bridge (`alfworld_bridge.py`) and its mock
profile (`mock_alfworld_bridge.py`): a line-delimited JSON request/response
loop in front of a stateful text-adventure engine.

The engine (ALFWorld / TextWorld) is external and opaque; it is modelled as
an oracle with an abstract internal state.  The bridge's own control flow —
line handling, command dispatch, session state, batch-of-one normalization,
and the gym wrapper-chain attribute walk — is embedded faithfully from the
Python source.
-/

namespace AlfBridge

/-- A decoded JSON command object, restricted to the fields the bridge ever
reads via `cmd.get(...)`.  `none` models an absent key (or a key whose value
is JSON `null`, which `dict.get` also reports as `None`). -/
structure Msg where
  cmd : Option String
  config_path : Option String := none
  split : Option String := none
  alfworld_data : Option String := none
  game_file : Option String := none
  action : Option String := none
deriving DecidableEq, Repr

/-- Python truthiness of an optional string: `None` and `""` are falsy. -/
def truthy : Option String → Bool
  | none => false
  | some s => !(s == "")

/-- One line read from stdin, after the branching the loop itself performs:
`line.strip()` empty, `json.loads` raising `JSONDecodeError`, or a decoded
object. -/
inductive InLine
  | blank
  | badJson (msg : String)
  | obj (m : Msg)
deriving DecidableEq, Repr

/-- The raw observation returned by the engine: either a non-sequence value
(carried as its `str(...)` rendering) or a list/tuple of strings. -/
inductive ObsVal
  | single (s : String)
  | seq (l : List String)
deriving DecidableEq, Repr

/-- A batched engine return value: a bare scalar or a list/tuple. -/
inductive Batched (α : Type)
  | scalar (a : α)
  | seq (l : List α)
deriving DecidableEq, Repr

/-- `obs[0] if isinstance(obs, (list, tuple)) else str(obs)`; indexing an
empty sequence raises `IndexError`. -/
def obsFirst : ObsVal → Except String String
  | .single s => .ok s
  | .seq [] => .error "IndexError: list index out of range"
  | .seq (s :: _) => .ok s

/-- `x[0] if isinstance(x, (list, tuple)) else x` with the coercion
(`bool`/`float`) folded into the element type; indexing an empty sequence
raises `IndexError`. -/
def batchFirst {α : Type} : Batched α → Except String α
  | .scalar a => .ok a
  | .seq [] => .error "IndexError: list index out of range"
  | .seq (a :: _) => .ok a

/-- The `infos` dict returned by the engine, restricted to the one key the
bridge reads. -/
structure Infos where
  admissible_commands : Option (List (List String))
deriving DecidableEq, Repr

/-- `infos.get("admissible_commands", [[]])[0]`. -/
def admFirst (i : Infos) : Except String (List String) :=
  match i.admissible_commands.getD [[]] with
  | [] => .error "IndexError: list index out of range"
  | a :: _ => .ok a

/-- Goal extraction after reset: `lines = obs_text.strip().split("\n");
goal = lines[0] if lines else ""`. -/
def goalOf (t : String) : String := (t.trim.splitOn "\n").headD ""

/-- One JSON-line response written by a bridge. -/
inductive Resp
  | statusOk
  | okCount (task_count : Nat)
  | tasks (ts : List String)
  | resetResp (obs : String) (admissible : List String) (goal : String)
      (done : Bool) (score : Int)
  | stepResp (obs : String) (admissible : List String) (done : Bool) (score : Int)
  | error (msg : String)
deriving DecidableEq, Repr

/-- Whether a response has the error shape `{status: "error", error: msg}`. -/
def Resp.isError : Resp → Bool
  | .error _ => true
  | _ => false

/- ### The mock bridge (`mock_alfworld_bridge.py`) -/

def MOCK_TASKS : List String :=
  ["path/to/task1.tw-pddl", "path/to/task2.tw-pddl", "path/to/task3.tw-pddl"]

def INITIAL_OBS : String :=
  "You are in the middle of a room. Looking quickly around you, you see a desk 1, a shelf 1, and a drawer 1.\nYour task is to put a mug in shelf."

/-- One canned step response of the mock. -/
structure StepR where
  obs : String
  admissible_commands : List String
  done : Bool
  score : Int
deriving DecidableEq, Repr

/-- The mock's fixed script of step responses, keyed by exact action text. -/
def STEP_RESPONSES (a : String) : Option StepR :=
  if a = "go to desk 1" then
    some ⟨"On the desk 1, you see a mug 1 and a pen 1.",
      ["take mug 1 from desk 1", "take pen 1 from desk 1", "go to shelf 1",
       "go to drawer 1"], false, 0⟩
  else if a = "take mug 1 from desk 1" then
    some ⟨"You pick up the mug 1 from the desk 1.",
      ["go to shelf 1", "go to drawer 1", "go to desk 1",
       "put mug 1 in/on shelf 1", "put mug 1 in/on drawer 1"], false, 0⟩
  else if a = "go to shelf 1" then
    some ⟨"You arrive at shelf 1. On the shelf 1, you see nothing.",
      ["put mug 1 in/on shelf 1", "go to desk 1", "go to drawer 1"], false, 0⟩
  else if a = "put mug 1 in/on shelf 1" then
    some ⟨"You put the mug 1 in/on the shelf 1.", [], true, 1⟩
  else none

def DEFAULT_STEP : StepR :=
  ⟨"Nothing happens.",
   ["go to desk 1", "go to shelf 1", "go to drawer 1", "look", "inventory"],
   false, 0⟩

/-- `f"Unknown command: {action}"` where `action = cmd.get("cmd")`. -/
def fmtCmd : Option String → String
  | none => "None"
  | some s => s

/-- The mock's handling of one input line: the responses it sends and
whether it breaks out of the loop. -/
def mockHandle (l : InLine) : List Resp × Bool :=
  match l with
  | .blank => ([], false)
  | .badJson _ => ([.error "Invalid JSON"], false)
  | .obj m =>
    if m.cmd = some "init" then ([.okCount MOCK_TASKS.length], false)
    else if m.cmd = some "list_tasks" then ([.tasks MOCK_TASKS], false)
    else if m.cmd = some "reset" then
      ([.resetResp INITIAL_OBS
          ["go to desk 1", "go to shelf 1", "go to drawer 1", "look", "inventory"]
          "Your task is to put a mug in shelf." false 0], false)
    else if m.cmd = some "step" then
      let act := m.action.getD ""
      let r := (STEP_RESPONSES act).getD DEFAULT_STEP
      ([.stepResp r.obs r.admissible_commands r.done r.score], false)
    else if m.cmd = some "shutdown" then ([.statusOk], true)
    else ([.error ("Unknown command: " ++ fmtCmd m.cmd)], false)

/-- The mock's main loop over a finite stdin. -/
def mockRun : List InLine → List Resp
  | [] => []
  | l :: rest =>
    let (out, stop) := mockHandle l
    if stop then out else out ++ mockRun rest

/- ### The gym wrapper chain (`set_game_files`) -/

/-- The static attribute structure of the engine's objects, identified by
numeric ids.  `envAttr o = some v` means `hasattr(o, "env")` with value `v`
(`none` models Python `None`); likewise `wrappedAttr` for `_wrapped_env`.
`hasSnake`/`hasCamel` are `hasattr(o, "game_files")`/`hasattr(o, "gameFiles")`. -/
structure Graph where
  envAttr : Nat → Option (Option Nat)
  wrappedAttr : Nat → Option (Option Nat)
  hasSnake : Nat → Bool
  hasCamel : Nat → Bool

/-- `getattr(e, "env", getattr(e, "_wrapped_env", None))`. -/
def Graph.delegate (g : Graph) (o : Nat) : Option Nat :=
  match g.envAttr o with
  | some v => v
  | none =>
    match g.wrappedAttr o with
    | some v => v
    | none => none

/-- The mutable values of the two task-set attributes, per object id. -/
structure EngVals where
  snakeVal : Nat → List String
  camelVal : Nat → List String

/-- The inner `for attr in ("game_files", "gameFiles"): if hasattr(e, attr):
setattr(e, attr, files)` of one loop iteration. -/
def setAttrs (g : Graph) (o : Nat) (files : List String) (v : EngVals) : EngVals :=
  let v1 := if g.hasSnake o then
      { v with snakeVal := Function.update v.snakeVal o files } else v
  if g.hasCamel o then
      { v1 with camelVal := Function.update v1.camelVal o files } else v1

/-- The `while e is not None` walk of `set_game_files`, with explicit fuel
standing in for the source's unbounded loop (which terminates only when the
delegate chain reaches absence). -/
def setChain (g : Graph) (files : List String) : Nat → Option Nat → EngVals → EngVals
  | _, none, v => v
  | 0, some _, v => v
  | fuel + 1, some o, v => setChain g files fuel (g.delegate o) (setAttrs g o files v)

/-- `set_game_files(env, files)`: walk the wrapper chain from `env` and set
the task-set attributes at every level. -/
def set_game_files (g : Graph) (root : Nat) (files : List String)
    (fuel : Nat) (v : EngVals) : EngVals :=
  setChain g files fuel (some root) v

/-- `n`-fold iteration of the delegate relation from an optional object. -/
def iterDelegate (g : Graph) : Nat → Option Nat → Option Nat
  | 0, s => s
  | n + 1, s => iterDelegate g n (s.bind g.delegate)

/- ### The real bridge's session and engine oracle -/

/-- The three loop-local session variables of the real bridge's `main`. -/
structure Session where
  env : Option Nat
  tw_env : Option Nat
  game_files : List String
deriving DecidableEq, Repr

/-- Outcome of the `init` try-block up to the `send` of success, recording
which statement raised: config load (`open`/`yaml`), engine construction
(`AlfredTWEnv`, including the imports), `init_env`, or the task-catalog
enumeration `list(tw_env.game_files)`.  Each later failure point carries the
values already assigned to the session's variables before the raise. -/
inductive InitOutcome
  | configFail (msg : String)
  | ctorFail (msg : String)
  | initEnvFail (tw : Nat) (msg : String)
  | enumFail (tw : Nat) (eh : Nat) (msg : String)
  | ok (tw : Nat) (eh : Nat) (files : List String)
deriving DecidableEq, Repr

/-- The opaque external engine, as a deterministic oracle over an abstract
internal state `ε`.  `doReset`/`doStep` may read the current wrapper-chain
attribute values; `doStep` receives the action batch the bridge passes. -/
structure Oracle (ε : Type) where
  doInit : ε → Msg → InitOutcome × ε
  doReset : ε → Nat → EngVals → Except String (ObsVal × Infos) × ε
  doStep : ε → Nat → EngVals → List String →
      Except String (ObsVal × Batched Int × Batched Bool × Infos) × ε
  doClose : ε → Nat → Bool × ε

/-- The whole mutable state the loop body touches: the session variables,
the engine objects' attribute values, and the engine's internal state. -/
structure LoopState (ε : Type) where
  sess : Session
  vals : EngVals
  eng : ε

/-- Which engine operations one command handler invoked. -/
inductive ECall
  | initCall | resetCall | stepCall | closeCall
deriving DecidableEq, Repr

/-- Result of handling one line: responses sent, new state, engine calls
made, and whether the loop breaks. -/
structure HandleOut (ε : Type) where
  out : List Resp
  st : LoopState ε
  calls : List ECall
  stop : Bool

/-- The `init` branch: dispatch to the oracle and record exactly the
assignments the Python try-block performed before the outcome. -/
def handleInit {ε : Type} (O : Oracle ε) (st : LoopState ε) (m : Msg) : HandleOut ε :=
  match O.doInit st.eng m with
  | (.configFail msg, e') =>
    ⟨[.error ("Failed to initialize ALFWorld: " ++ msg)],
      { st with eng := e' }, [.initCall], false⟩
  | (.ctorFail msg, e') =>
    ⟨[.error ("Failed to initialize ALFWorld: " ++ msg)],
      { st with eng := e' }, [.initCall], false⟩
  | (.initEnvFail tw msg, e') =>
    ⟨[.error ("Failed to initialize ALFWorld: " ++ msg)],
      { st with sess := { st.sess with tw_env := some tw }, eng := e' },
      [.initCall], false⟩
  | (.enumFail tw eh msg, e') =>
    ⟨[.error ("Failed to initialize ALFWorld: " ++ msg)],
      { st with sess := { st.sess with tw_env := some tw, env := some eh }, eng := e' },
      [.initCall], false⟩
  | (.ok tw eh files, e') =>
    ⟨[.okCount files.length],
      { st with sess := ⟨some eh, some tw, files⟩, eng := e' },
      [.initCall], false⟩

/-- The narrowing prefix of the `reset` branch: `if game_file: files =
[game_file]; tw_env.game_files = files; set_game_files(env, files)`.
Returns `none` when `tw_env` is `None` and the attribute assignment raises
`AttributeError` (unreachable from the bridge's reachable states). -/
def resetNarrow (g : Graph) (F : Nat) (sess : Session) (vals : EngVals)
    (gf : Option String) (eh : Nat) : Option EngVals :=
  match gf with
  | none => some vals
  | some s =>
    if s = "" then some vals
    else
      match sess.tw_env with
      | none => none
      | some tw =>
        let files := [s]
        let v1 : EngVals := { vals with snakeVal := Function.update vals.snakeVal tw files }
        some (set_game_files g eh files F v1)

/-- The tail of the `reset` branch once narrowing is done: call the engine
and normalize the batch-of-one results, with every raise caught and turned
into a `Reset failed:` error response. -/
def resetCore {ε : Type} (O : Oracle ε) (st : LoopState ε) (eh : Nat)
    (vals' : EngVals) : HandleOut ε :=
  match O.doReset st.eng eh vals' with
  | (.error msg, e') =>
    ⟨[.error ("Reset failed: " ++ msg)], { st with vals := vals', eng := e' },
      [.resetCall], false⟩
  | (.ok (obs, infos), e') =>
    let st' : LoopState ε := { st with vals := vals', eng := e' }
    match obsFirst obs with
    | .error msg => ⟨[.error ("Reset failed: " ++ msg)], st', [.resetCall], false⟩
    | .ok t =>
      match admFirst infos with
      | .error msg => ⟨[.error ("Reset failed: " ++ msg)], st', [.resetCall], false⟩
      | .ok a => ⟨[.resetResp t a (goalOf t) false 0], st', [.resetCall], false⟩

/-- The `reset` branch. -/
def handleReset {ε : Type} (O : Oracle ε) (g : Graph) (F : Nat)
    (st : LoopState ε) (m : Msg) : HandleOut ε :=
  match st.sess.env with
  | none =>
    ⟨[.error "Environment not initialized. Call init first."], st, [], false⟩
  | some eh =>
    match resetNarrow g F st.sess st.vals m.game_file eh with
    | none =>
      ⟨[.error "Reset failed: 'NoneType' object has no attribute 'game_files'"],
        st, [], false⟩
    | some vals' => resetCore O st eh vals'

/-- The `step` branch. -/
def handleStep {ε : Type} (O : Oracle ε) (st : LoopState ε) (m : Msg) : HandleOut ε :=
  match st.sess.env with
  | none =>
    ⟨[.error "Environment not initialized. Call init first."], st, [], false⟩
  | some eh =>
    let act := m.action.getD "look"
    match O.doStep st.eng eh st.vals [act] with
    | (.error msg, e') =>
      ⟨[.error ("Step failed: " ++ msg)], { st with eng := e' }, [.stepCall], false⟩
    | (.ok (obs, scores, dones, infos), e') =>
      let st' : LoopState ε := { st with eng := e' }
      match obsFirst obs with
      | .error msg => ⟨[.error ("Step failed: " ++ msg)], st', [.stepCall], false⟩
      | .ok t =>
        match batchFirst dones with
        | .error msg => ⟨[.error ("Step failed: " ++ msg)], st', [.stepCall], false⟩
        | .ok d =>
          match batchFirst scores with
          | .error msg => ⟨[.error ("Step failed: " ++ msg)], st', [.stepCall], false⟩
          | .ok sc =>
            match admFirst infos with
            | .error msg => ⟨[.error ("Step failed: " ++ msg)], st', [.stepCall], false⟩
            | .ok a => ⟨[.stepResp t a d sc], st', [.stepCall], false⟩

/-- The `shutdown` branch: best-effort close (failures swallowed), then
`{status: "ok"}` and break. -/
def handleShutdown {ε : Type} (O : Oracle ε) (st : LoopState ε) : HandleOut ε :=
  match st.sess.env with
  | none => ⟨[.statusOk], st, [], true⟩
  | some eh =>
    let r := O.doClose st.eng eh
    ⟨[.statusOk], { st with eng := r.2 }, [.closeCall], true⟩

/-- The command dispatch (`elif` chain on `cmd.get("cmd")`). -/
def handleMsg {ε : Type} (O : Oracle ε) (g : Graph) (F : Nat)
    (st : LoopState ε) (m : Msg) : HandleOut ε :=
  if m.cmd = some "init" then handleInit O st m
  else if m.cmd = some "list_tasks" then ⟨[.tasks st.sess.game_files], st, [], false⟩
  else if m.cmd = some "reset" then handleReset O g F st m
  else if m.cmd = some "step" then handleStep O st m
  else if m.cmd = some "shutdown" then handleShutdown O st
  else ⟨[.error ("Unknown command: " ++ fmtCmd m.cmd)], st, [], false⟩

/-- Handling one stdin line of the real bridge: blank-line skip, JSON decode
failure, or dispatch of the decoded object. -/
def handleLine {ε : Type} (O : Oracle ε) (g : Graph) (F : Nat)
    (st : LoopState ε) (l : InLine) : HandleOut ε :=
  match l with
  | .blank => ⟨[], st, [], false⟩
  | .badJson msg => ⟨[.error ("Invalid JSON: " ++ msg)], st, [], false⟩
  | .obj m => handleMsg O g F st m

/-- The real bridge's main loop over a finite stdin: emitted responses and
the final state. -/
def runLoop {ε : Type} (O : Oracle ε) (g : Graph) (F : Nat) :
    LoopState ε → List InLine → List Resp × LoopState ε
  | st, [] => ([], st)
  | st, l :: rest =>
    let h := handleLine O g F st l
    if h.stop then (h.out, h.st)
    else
      let r := runLoop O g F h.st rest
      (h.out ++ r.1, r.2)

/-- `env = None; tw_env = None; game_files = []` at loop start. -/
def initSession : Session := ⟨none, none, []⟩

/-- The loop's starting state, given the engine's initial internal state and
initial attribute values. -/
def initState {ε : Type} (e : ε) (v : EngVals) : LoopState ε := ⟨initSession, v, e⟩

/- ### Concrete instances used by witnesses and counterexamples -/

/-- A chain of two engine objects: `0` delegates to `1` via its `env`
attribute; `0` carries `game_files`, `1` carries `gameFiles`. -/
def twoLayerGraph : Graph :=
  ⟨fun o => if o = 0 then some (some 1) else none,
   fun _ => none,
   fun o => o == 0,
   fun o => o == 1⟩

/-- A self-delegating object: its `env` attribute points back to itself, so
the wrapper-chain walk never reaches absence. -/
def cyclicGraph : Graph :=
  ⟨fun _ => some (some 0), fun _ => none, fun _ => true, fun _ => false⟩

/-- Attribute values that are everywhere the empty list. -/
def trivVals : EngVals := ⟨fun _ => [], fun _ => []⟩

/-- An empty object graph: no delegates, no task-set attributes. -/
def trivGraph : Graph := ⟨fun _ => none, fun _ => none, fun _ => false, fun _ => false⟩

/-- An engine whose construction always fails and whose episode operations
always raise. -/
def trivOracle : Oracle Unit :=
  ⟨fun e _ => (.ctorFail "engine unavailable", e),
   fun e _ _ => (.error "engine unavailable", e),
   fun e _ _ _ => (.error "engine unavailable", e),
   fun e _ => (false, e)⟩

/-- An engine whose `init` constructs `AlfredTWEnv` (object 5) and the
batched env (object 7) successfully, then raises while enumerating the task
catalog `list(tw_env.game_files)`. -/
def enumFailOracle : Oracle Unit :=
  ⟨fun e _ => (.enumFail 5 7 "boom", e),
   fun e _ _ => (.error "engine unavailable", e),
   fun e _ _ _ => (.error "engine unavailable", e),
   fun e _ => (false, e)⟩

/-- A well-behaved engine with a two-task catalog, a fixed reset
observation in a batch of one, and a fixed step result in a batch of one. -/
def demoOracle : Oracle Unit :=
  ⟨fun e _ => (.ok 5 7 ["path/a.tw-pddl", "path/b.tw-pddl"], e),
   fun e _ _ => (.ok (.seq ["A goal line\nA room description"],
      ⟨some [["go north", "look"]]⟩), e),
   fun e _ _ _ => (.ok (.seq ["Step observation"], .seq [(0 : Int)], .seq [false],
      ⟨some [["look", "inventory"]]⟩), e),
   fun e _ => (true, e)⟩

/-- The loop state right after `demoOracle`'s successful `init`. -/
def demoState : LoopState Unit :=
  ⟨⟨some 7, some 5, ["path/a.tw-pddl", "path/b.tw-pddl"]⟩, trivVals, ()⟩

/-- `action == "init" || ... || action == "shutdown"`: whether the decoded
`cmd` value hits one of the five dispatch branches. -/
def recognizedCmd (c : Option String) : Bool :=
  c == some "init" || c == some "list_tasks" || c == some "reset" ||
  c == some "step" || c == some "shutdown"

/-- The task catalog a successful `init` outcome enumerated, if any. -/
def InitOutcome.filesOf : InitOutcome → Option (List String)
  | .ok _ _ files => some files
  | _ => none

/-- Spec-side characterization (for the catalog-invariant claim): the
stored catalog after one command is the catalog enumerated by a successful
`init`, and the previous catalog after every other command. -/
def specCatalogAfter {ε : Type} (O : Oracle ε) (st : LoopState ε) : InLine → List String
  | .obj m =>
    if m.cmd = some "init" then ((O.doInit st.eng m).1.filesOf).getD st.sess.game_files
    else st.sess.game_files
  | _ => st.sess.game_files

/-- The end-to-end mock scenario's input script: init, reset, the
navigation steps of the fixed script, the final put, and shutdown. -/
def c9Input : List InLine :=
  [.obj { cmd := some "init" },
   .obj { cmd := some "reset" },
   .obj { cmd := some "step", action := some "go to desk 1" },
   .obj { cmd := some "step", action := some "take mug 1 from desk 1" },
   .obj { cmd := some "step", action := some "go to shelf 1" },
   .obj { cmd := some "step", action := some "put mug 1 in/on shelf 1" },
   .obj { cmd := some "shutdown" }]

/- ### Lemmas about the wrapper-chain walk -/

theorem iterDelegate_none (g : Graph) : ∀ n, iterDelegate g n none = none := by
  intro n
  induction n with
  | zero => rfl
  | succ n ih => simpa [iterDelegate] using ih

theorem iterDelegate_add (g : Graph) (b : Nat) :
    ∀ (a : Nat) (s : Option Nat),
      iterDelegate g (a + b) s = iterDelegate g b (iterDelegate g a s) := by
  intro a
  induction a with
  | zero => intro s; rw [Nat.zero_add]; rfl
  | succ a ih =>
    intro s
    rw [Nat.succ_add]
    calc iterDelegate g (a + b + 1) s
        = iterDelegate g (a + b) (s.bind g.delegate) := rfl
      _ = iterDelegate g b (iterDelegate g a (s.bind g.delegate)) := ih _
      _ = iterDelegate g b (iterDelegate g (a + 1) s) := rfl

theorem setAttrs_snakeVal (g : Graph) (o' : Nat) (files : List String) (v : EngVals) :
    (setAttrs g o' files v).snakeVal =
      if g.hasSnake o' then Function.update v.snakeVal o' files else v.snakeVal := by
  unfold setAttrs
  by_cases h1 : g.hasSnake o' <;> by_cases h2 : g.hasCamel o' <;> simp [h1, h2]

theorem setAttrs_camelVal (g : Graph) (o' : Nat) (files : List String) (v : EngVals) :
    (setAttrs g o' files v).camelVal =
      if g.hasCamel o' then Function.update v.camelVal o' files else v.camelVal := by
  unfold setAttrs
  by_cases h1 : g.hasSnake o' <;> by_cases h2 : g.hasCamel o' <;> simp [h1, h2]

theorem setChain_keeps_snake (g : Graph) (files : List String) (o : Nat) :
    ∀ (fuel : Nat) (s : Option Nat) (v : EngVals), v.snakeVal o = files →
      (setChain g files fuel s v).snakeVal o = files := by
  intro fuel
  induction fuel with
  | zero => intro s v h; cases s <;> simpa [setChain]
  | succ n ih =>
    intro s v h
    cases s with
    | none => simpa [setChain]
    | some o' =>
      rw [setChain]
      apply ih
      rw [setAttrs_snakeVal]
      split
      · rw [Function.update_apply]
        split
        · rfl
        · exact h
      · exact h

theorem setChain_keeps_camel (g : Graph) (files : List String) (o : Nat) :
    ∀ (fuel : Nat) (s : Option Nat) (v : EngVals), v.camelVal o = files →
      (setChain g files fuel s v).camelVal o = files := by
  intro fuel
  induction fuel with
  | zero => intro s v h; cases s <;> simpa [setChain]
  | succ n ih =>
    intro s v h
    cases s with
    | none => simpa [setChain]
    | some o' =>
      rw [setChain]
      apply ih
      rw [setAttrs_camelVal]
      split
      · rw [Function.update_apply]
        split
        · rfl
        · exact h
      · exact h

theorem setChain_visits_snake (g : Graph) (files : List String) (o : Nat) :
    ∀ (k root fuel : Nat) (v : EngVals),
      iterDelegate g k (some root) = some o → k < fuel → g.hasSnake o = true →
      (setChain g files fuel (some root) v).snakeVal o = files := by
  intro k
  induction k with
  | zero =>
    intro root fuel v hvis hlt hhas
    have hro : root = o := by
      have : (some root : Option Nat) = some o := hvis
      exact Option.some.inj this
    subst hro
    obtain ⟨n, rfl⟩ : ∃ n, fuel = n + 1 := ⟨fuel - 1, by omega⟩
    rw [setChain]
    apply setChain_keeps_snake
    rw [setAttrs_snakeVal, if_pos hhas, Function.update_same]
  | succ k ih =>
    intro root fuel v hvis hlt hhas
    obtain ⟨n, rfl⟩ : ∃ n, fuel = n + 1 := ⟨fuel - 1, by omega⟩
    have hvis' : iterDelegate g k (g.delegate root) = some o := hvis
    cases hdel : g.delegate root with
    | none =>
      rw [hdel, iterDelegate_none] at hvis'
      exact absurd hvis' (by simp)
    | some r' =>
      rw [hdel] at hvis'
      rw [setChain, hdel]
      exact ih r' n _ hvis' (by omega) hhas

theorem setChain_visits_camel (g : Graph) (files : List String) (o : Nat) :
    ∀ (k root fuel : Nat) (v : EngVals),
      iterDelegate g k (some root) = some o → k < fuel → g.hasCamel o = true →
      (setChain g files fuel (some root) v).camelVal o = files := by
  intro k
  induction k with
  | zero =>
    intro root fuel v hvis hlt hhas
    have hro : root = o := by
      have : (some root : Option Nat) = some o := hvis
      exact Option.some.inj this
    subst hro
    obtain ⟨n, rfl⟩ : ∃ n, fuel = n + 1 := ⟨fuel - 1, by omega⟩
    rw [setChain]
    apply setChain_keeps_camel
    rw [setAttrs_camelVal, if_pos hhas, Function.update_same]
  | succ k ih =>
    intro root fuel v hvis hlt hhas
    obtain ⟨n, rfl⟩ : ∃ n, fuel = n + 1 := ⟨fuel - 1, by omega⟩
    have hvis' : iterDelegate g k (g.delegate root) = some o := hvis
    cases hdel : g.delegate root with
    | none =>
      rw [hdel, iterDelegate_none] at hvis'
      exact absurd hvis' (by simp)
    | some r' =>
      rw [hdel] at hvis'
      rw [setChain, hdel]
      exact ih r' n _ hvis' (by omega) hhas

theorem setChain_stabilizes (g : Graph) (files : List String) :
    ∀ (n : Nat) (s : Option Nat) (v : EngVals) (m : Nat),
      iterDelegate g n s = none → n ≤ m →
      setChain g files m s v = setChain g files n s v := by
  intro n
  induction n with
  | zero =>
    intro s v m h0 _
    have hs : s = none := h0
    subst hs
    cases m <;> rfl
  | succ n ih =>
    intro s v m h hle
    cases s with
    | none => cases m <;> rfl
    | some o =>
      obtain ⟨m', rfl⟩ : ∃ m', m = m' + 1 := ⟨m - 1, by omega⟩
      rw [setChain, setChain]
      have h' : iterDelegate g n (g.delegate o) = none := h
      exact ih (g.delegate o) (setAttrs g o files v) m' h' (by omega)

/- ### Claim theorems -/

/-- C3: for every finite delegate chain starting at the engine handle (the
inner delegate found via `env` else `_wrapped_env` until none remains),
after `set_game_files` narrows the active task set to the single game file
`f`, every layer of the chain has each of its task-set attributes
(`game_files`, `gameFiles`) that exists set to the one-element list `[f]`.
The chain being finite means the delegate relation reaches absence after
`n` steps; `o` is any layer of the chain and the walk is run with fuel at
least `n` (the source's loop is unbounded, so any sufficient fuel agrees). -/
theorem c3_chain_narrowing (g : Graph) (root o : Nat) (f : String) (v : EngVals)
    (n k fuel : Nat)
    (hfin : iterDelegate g n (some root) = none)
    (hvis : iterDelegate g k (some root) = some o)
    (hfuel : n ≤ fuel) :
    (g.hasSnake o = true → (set_game_files g root [f] fuel v).snakeVal o = [f]) ∧
    (g.hasCamel o = true → (set_game_files g root [f] fuel v).camelVal o = [f]) := by
  have hk : k < n := by
    by_contra hk
    push_neg at hk
    obtain ⟨d, rfl⟩ := Nat.exists_eq_add_of_le hk
    rw [iterDelegate_add, hfin, iterDelegate_none] at hvis
    exact absurd hvis (by simp)
  refine ⟨fun h => ?_, fun h => ?_⟩
  · exact setChain_visits_snake g [f] o k root fuel v hvis (by omega) h
  · exact setChain_visits_camel g [f] o k root fuel v hvis (by omega) h

/-- Witness for C3 on a concrete two-layer chain: `0 → 1 → absent`, where
layer `0` has `game_files` and layer `1` has `gameFiles`; both end up
holding the one-element list. -/
theorem c3_witness :
    (set_game_files twoLayerGraph 0 ["t.tw-pddl"] 2 trivVals).snakeVal 0 = ["t.tw-pddl"] ∧
    (set_game_files twoLayerGraph 0 ["t.tw-pddl"] 2 trivVals).camelVal 1 = ["t.tw-pddl"] :=
  ⟨(c3_chain_narrowing twoLayerGraph 0 0 "t.tw-pddl" trivVals 2 0 2 rfl rfl
      (by decide)).1 rfl,
   (c3_chain_narrowing twoLayerGraph 0 1 "t.tw-pddl" trivVals 2 1 2 rfl rfl
      (by decide)).2 rfl⟩

/-- C10: the `set_game_files` walk terminates for every delegate chain that
reaches absence after finitely many steps: once the chain from `root` is
exhausted in `n` steps, running the loop with any fuel `m ≥ n` changes
nothing more, i.e. the unbounded source loop completes after `n`
iterations.  Finiteness is a genuine precondition: on the self-delegating
`cyclicGraph`, the delegate chain from object `0` never reaches absence, so
the source's `while` loop would never exit. -/
theorem c10_termination (g : Graph) (root : Nat) (files : List String) (v : EngVals)
    (n m : Nat)
    (hfin : iterDelegate g n (some root) = none) (hm : n ≤ m) :
    set_game_files g root files m v = set_game_files g root files n v ∧
    ∀ j, iterDelegate cyclicGraph j (some 0) = some 0 := by
  constructor
  · exact setChain_stabilizes g files n (some root) v m hfin hm
  · intro j
    induction j with
    | zero => rfl
    | succ j ih => simpa [iterDelegate, cyclicGraph, Graph.delegate] using ih

/-- Witness for C10 on the concrete two-layer chain: fuel 5 and fuel 2
agree once the chain is exhausted in 2 steps, and the cyclic chain never
reaches absence. -/
theorem c10_witness :
    set_game_files twoLayerGraph 0 ["x"] 5 trivVals =
      set_game_files twoLayerGraph 0 ["x"] 2 trivVals ∧
    iterDelegate cyclicGraph 3 (some 0) = some 0 :=
  ⟨(c10_termination twoLayerGraph 0 ["x"] trivVals 2 5 rfl (by decide)).1,
   (c10_termination twoLayerGraph 0 ["x"] trivVals 2 5 rfl (by decide)).2 3⟩

/-- C1 counterexample: the claim quantifies over both implementations, but
the mock profile answers a `reset` issued before any `init` with its canned
success response (obs/admissible/goal/done/score), not a state-error
response of the form `{status: "error", error: msg}`. -/
theorem c1_counterexample :
    mockRun [.obj { cmd := some "reset" }] =
      [.resetResp INITIAL_OBS
        ["go to desk 1", "go to shelf 1", "go to drawer 1", "look", "inventory"]
        "Your task is to put a mug in shelf." false 0] ∧
    (mockRun [.obj { cmd := some "reset" }]).map Resp.isError = [false] := by
  constructor <;> decide

/-- C1 (amended): in the real bridge, a `reset` or `step` issued while the
session's engine handle is absent (as it is before any `init` attempt)
yields the state-error response, performs no engine call, leaves the whole
state untouched, and the loop continues with the next line; the mock
profile instead answers `reset` and `step` with its canned success
responses regardless of initialization. -/
theorem c1_state_error_before_init {ε : Type} (O : Oracle ε) (g : Graph) (F : Nat)
    (st : LoopState ε) (m : Msg) (rest : List InLine)
    (henv : st.sess.env = none)
    (hcmd : m.cmd = some "reset" ∨ m.cmd = some "step") :
    handleLine O g F st (.obj m) =
      ⟨[.error "Environment not initialized. Call init first."], st, [], false⟩ ∧
    (runLoop O g F st (.obj m :: rest)).1 =
      .error "Environment not initialized. Call init first." ::
        (runLoop O g F st rest).1 ∧
    (runLoop O g F st (.obj m :: rest)).2 = (runLoop O g F st rest).2 ∧
    mockHandle (.obj { cmd := some "reset" }) =
      ([.resetResp INITIAL_OBS
          ["go to desk 1", "go to shelf 1", "go to drawer 1", "look", "inventory"]
          "Your task is to put a mug in shelf." false 0], false) ∧
    mockHandle (.obj { cmd := some "step" }) =
      ([.stepResp "Nothing happens."
          ["go to desk 1", "go to shelf 1", "go to drawer 1", "look", "inventory"]
          false 0], false) := by
  have h1 : handleLine O g F st (.obj m) =
      ⟨[.error "Environment not initialized. Call init first."], st, [], false⟩ := by
    cases hcmd with
    | inl h => simp [handleLine, handleMsg, h, handleReset, henv]
    | inr h => simp [handleLine, handleMsg, h, handleStep, henv]
  refine ⟨h1, ?_, ?_, by decide, by decide⟩
  · rw [runLoop]
    simp [h1]
  · rw [runLoop]
    simp [h1]

/-- Witness for C1's amended theorem at the empty starting state with an
engine that is never available. -/
theorem c1_witness :
    (initState () trivVals).sess.env = none ∧
    handleLine trivOracle trivGraph 0 (initState () trivVals)
        (.obj { cmd := some "reset" }) =
      ⟨[.error "Environment not initialized. Call init first."],
        initState () trivVals, [], false⟩ :=
  ⟨rfl, (c1_state_error_before_init trivOracle trivGraph 0 (initState () trivVals)
      { cmd := some "reset" } [] rfl (Or.inl rfl)).1⟩

/-- C2 counterexample: with an engine whose construction and `init_env`
succeed but whose task-catalog enumeration raises, the `init` command
returns an error response yet leaves the session holding the freshly
constructed engine handle (`env = 7`) and TextWorld env (`tw_env = 5`) —
the engine state is not left as it was before the command, and a partially
initialized handle is retained. -/
theorem c2_counterexample :
    (handleLine enumFailOracle trivGraph 0 (initState () trivVals)
        (.obj { cmd := some "init" })).out.map Resp.isError = [true] ∧
    (handleLine enumFailOracle trivGraph 0 (initState () trivVals)
        (.obj { cmd := some "init" })).st.sess.env = some 7 ∧
    (handleLine enumFailOracle trivGraph 0 (initState () trivVals)
        (.obj { cmd := some "init" })).st.sess.tw_env = some 5 := by
  refine ⟨rfl, rfl, rfl⟩

/-- C2 (amended): every failing `init` returns an error response, but the
session keeps exactly the assignments made before the failing statement:
a config-load or engine-construction failure leaves the session unchanged;
an `init_env` failure leaves the new TextWorld env in `tw_env` (engine
handle and catalog unchanged); a task-enumeration failure leaves both the
new TextWorld env and the new engine handle (catalog unchanged).  A failed
re-initialization can therefore retain a mix of old and new engine state. -/
theorem c2_init_failure_state {ε : Type} (O : Oracle ε) (st : LoopState ε) (m : Msg) :
    (∀ msg e', O.doInit st.eng m = (.configFail msg, e') →
      handleInit O st m = ⟨[.error ("Failed to initialize ALFWorld: " ++ msg)],
        { st with eng := e' }, [.initCall], false⟩) ∧
    (∀ msg e', O.doInit st.eng m = (.ctorFail msg, e') →
      handleInit O st m = ⟨[.error ("Failed to initialize ALFWorld: " ++ msg)],
        { st with eng := e' }, [.initCall], false⟩) ∧
    (∀ tw msg e', O.doInit st.eng m = (.initEnvFail tw msg, e') →
      handleInit O st m = ⟨[.error ("Failed to initialize ALFWorld: " ++ msg)],
        { st with sess := { st.sess with tw_env := some tw }, eng := e' },
        [.initCall], false⟩) ∧
    (∀ tw eh msg e', O.doInit st.eng m = (.enumFail tw eh msg, e') →
      handleInit O st m = ⟨[.error ("Failed to initialize ALFWorld: " ++ msg)],
        { st with
          sess := { st.sess with tw_env := some tw, env := some eh },
          eng := e' }, [.initCall], false⟩) := by
  refine ⟨?_, ?_, ?_, ?_⟩
  · intro msg e' h
    simp [handleInit, h]
  · intro msg e' h
    simp [handleInit, h]
  · intro tw msg e' h
    simp [handleInit, h]
  · intro tw eh msg e' h
    simp [handleInit, h]

/-- Witness for C2's amended theorem on the enumeration-failing engine. -/
theorem c2_witness :
    handleInit enumFailOracle (initState () trivVals) { cmd := some "init" } =
      ⟨[.error ("Failed to initialize ALFWorld: " ++ "boom")],
        { initState () trivVals with
            sess := { (initState () trivVals).sess with
              tw_env := some 5, env := some 7 }, eng := () },
        [.initCall], false⟩ :=
  (c2_init_failure_state enumFailOracle (initState () trivVals)
    { cmd := some "init" }).2.2.2 5 7 "boom" () rfl

/-- C4: for every successful `reset` on an initialized engine (any narrowing
prefix included), the response's `obs` is the first batch slot of the
engine's raw observation when it is a sequence and the observation coerced
to text otherwise (`obsFirst`), `admissible_commands` is the legal-action
list of the first batch slot (`admFirst`), `goal` is the first line of the
stripped observation text (`goalOf`), and `done`/`score` are the constants
`false`/`0`. -/
theorem c4_reset_success {ε : Type} (O : Oracle ε) (g : Graph) (F : Nat)
    (st : LoopState ε) (m : Msg) (eh : Nat) (v' : EngVals) (e' : ε)
    (obs : ObsVal) (infos : Infos) (t : String) (a : List String)
    (henv : st.sess.env = some eh)
    (hm : m.cmd = some "reset")
    (hnar : resetNarrow g F st.sess st.vals m.game_file eh = some v')
    (hres : O.doReset st.eng eh v' = (.ok (obs, infos), e'))
    (hobs : obsFirst obs = .ok t)
    (hadm : admFirst infos = .ok a) :
    handleLine O g F st (.obj m) =
      ⟨[.resetResp t a (goalOf t) false 0],
        { st with vals := v', eng := e' }, [.resetCall], false⟩ := by
  simp [handleLine, handleMsg, hm, handleReset, henv, hnar, resetCore, hres,
    hobs, hadm]

/-- Witness for C4 on the demo engine right after its successful `init`:
the batched observation is unwrapped, the first legal-action batch slot is
extracted, and the goal is derived from the observation text. -/
theorem c4_witness :
    handleLine demoOracle trivGraph 0 demoState (.obj { cmd := some "reset" }) =
      ⟨[.resetResp "A goal line\nA room description" ["go north", "look"]
          (goalOf "A goal line\nA room description") false 0],
        { demoState with vals := trivVals, eng := () }, [.resetCall], false⟩ :=
  c4_reset_success demoOracle trivGraph 0 demoState { cmd := some "reset" } 7
    trivVals () (.seq ["A goal line\nA room description"])
    ⟨some [["go north", "look"]]⟩ "A goal line\nA room description"
    ["go north", "look"] rfl rfl rfl rfl rfl rfl

/-- C5: for every `step` on an initialized engine, an omitted `action`
defaults to "look" and the engine is invoked with the single-element batch
`[action]` (the hypothesis below constrains exactly that call); the
response takes the first batch slot of each returned value, with `done`
coerced to a boolean and `score` to a number (the coercions are folded into
`Batched Bool`/`Batched Int`).  The mock profile honours the same default:
its response to a `step` without an `action` equals its response to
`step "look"` (both fall through its fixed script to the default
fallback). -/
theorem c5_step_batch {ε : Type} (O : Oracle ε) (g : Graph) (F : Nat)
    (st : LoopState ε) (m : Msg) (eh : Nat)
    (obs : ObsVal) (scores : Batched Int) (dones : Batched Bool) (infos : Infos)
    (e' : ε) (t : String) (d : Bool) (sc : Int) (a : List String)
    (henv : st.sess.env = some eh)
    (hm : m.cmd = some "step")
    (hres : O.doStep st.eng eh st.vals [m.action.getD "look"] =
      (.ok (obs, scores, dones, infos), e'))
    (hobs : obsFirst obs = .ok t)
    (hdone : batchFirst dones = .ok d)
    (hscore : batchFirst scores = .ok sc)
    (hadm : admFirst infos = .ok a) :
    handleLine O g F st (.obj m) =
      ⟨[.stepResp t a d sc], { st with eng := e' }, [.stepCall], false⟩ ∧
    mockHandle (.obj { cmd := some "step" }) =
      mockHandle (.obj { cmd := some "step", action := some "look" }) := by
  constructor
  · simp [handleLine, handleMsg, hm, handleStep, henv, hres, hobs, hdone,
      hscore, hadm]
  · decide

/-- Witness for C5 on the demo engine with `action` omitted: the engine is
stepped with `["look"]` and the batch-of-one results are unwrapped. -/
theorem c5_witness :
    handleLine demoOracle trivGraph 0 demoState (.obj { cmd := some "step" }) =
      ⟨[.stepResp "Step observation" ["look", "inventory"] false 0],
        { demoState with eng := () }, [.stepCall], false⟩ :=
  (c5_step_batch demoOracle trivGraph 0 demoState { cmd := some "step" } 7
    (.seq ["Step observation"]) (.seq [(0 : Int)]) (.seq [false])
    ⟨some [["look", "inventory"]]⟩ () "Step observation" false 0
    ["look", "inventory"] rfl rfl rfl rfl rfl rfl rfl).1

/-- C6: once the loop reaches a `shutdown` command, the response is
`{status: "ok"}` regardless of whether an engine is active or whether the
engine's release fails (the close result is ignored), and it is the last
response emitted: the loop terminates without touching the remaining input,
in the real bridge and in the mock alike. -/
theorem c6_shutdown {ε : Type} (O : Oracle ε) (g : Graph) (F : Nat)
    (st : LoopState ε) (m : Msg) (rest : List InLine)
    (hm : m.cmd = some "shutdown") :
    (handleLine O g F st (.obj m)).out = [.statusOk] ∧
    (handleLine O g F st (.obj m)).stop = true ∧
    (runLoop O g F st (.obj m :: rest)).1 = [.statusOk] ∧
    mockRun (.obj m :: rest) = [.statusOk] := by
  have h1 : (handleLine O g F st (.obj m)).out = [.statusOk] ∧
      (handleLine O g F st (.obj m)).stop = true := by
    cases h : st.sess.env with
    | none => simp [handleLine, handleMsg, hm, handleShutdown, h]
    | some eh => simp [handleLine, handleMsg, hm, handleShutdown, h]
  refine ⟨h1.1, h1.2, ?_, ?_⟩
  · rw [runLoop]
    simp [h1.1, h1.2]
  · rw [mockRun]
    simp [mockHandle, hm]

/-- Witness for C6: a shutdown on the never-initialized session with a
pending extra line after it still answers `{status: "ok"}` once and stops. -/
theorem c6_witness :
    (runLoop trivOracle trivGraph 0 (initState () trivVals)
      [.obj { cmd := some "shutdown" }, .obj { cmd := some "list_tasks" }]).1 =
      [.statusOk] :=
  (c6_shutdown trivOracle trivGraph 0 (initState () trivVals)
    { cmd := some "shutdown" } [.obj { cmd := some "list_tasks" }] rfl).2.2.1

/-- C7: a blank line produces no response; a line that is not valid JSON
produces exactly one `{status: "error", error: msg}` response; a decoded
object whose `cmd` is absent or unrecognized produces exactly one
`{status: "error", error: "Unknown command: value"}` response (`None` for
an absent `cmd`); in all three cases the loop continues with the rest of
the input, its state untouched. -/
theorem c7_protocol_errors {ε : Type} (O : Oracle ε) (g : Graph) (F : Nat)
    (st : LoopState ε) (rest : List InLine) :
    runLoop O g F st (.blank :: rest) = runLoop O g F st rest ∧
    (∀ msg, runLoop O g F st (.badJson msg :: rest) =
      (.error ("Invalid JSON: " ++ msg) :: (runLoop O g F st rest).1,
        (runLoop O g F st rest).2)) ∧
    (∀ m, recognizedCmd m.cmd = false →
      runLoop O g F st (.obj m :: rest) =
        (.error ("Unknown command: " ++ fmtCmd m.cmd) ::
          (runLoop O g F st rest).1, (runLoop O g F st rest).2)) := by
  refine ⟨?_, ?_, ?_⟩
  · rw [runLoop]
    simp [handleLine]
  · intro msg
    rw [runLoop]
    simp [handleLine]
  · intro m h
    simp only [recognizedCmd, Bool.or_eq_false_iff, beq_eq_false_iff_ne] at h
    obtain ⟨⟨⟨⟨h1, h2⟩, h3⟩, h4⟩, h5⟩ := h
    rw [runLoop]
    simp [handleLine, handleMsg, h1, h2, h3, h4, h5]

/-- Witness for C7's unknown-command case at `{"cmd": "fly"}`. -/
theorem c7_witness :
    recognizedCmd (some "fly") = false ∧
    runLoop trivOracle trivGraph 0 (initState () trivVals)
        [.obj { cmd := some "fly" }] =
      (.error ("Unknown command: " ++ fmtCmd (some "fly")) ::
        (runLoop trivOracle trivGraph 0 (initState () trivVals) []).1,
        (runLoop trivOracle trivGraph 0 (initState () trivVals) []).2) :=
  ⟨rfl, (c7_protocol_errors trivOracle trivGraph 0 (initState () trivVals)
    []).2.2 { cmd := some "fly" } rfl⟩

theorem resetCore_sess {ε : Type} (O : Oracle ε) (st : LoopState ε) (eh : Nat)
    (v' : EngVals) : (resetCore O st eh v').st.sess = st.sess := by
  rcases hres : O.doReset st.eng eh v' with ⟨res, e'⟩
  rcases res with msg | ⟨obs, infos⟩
  · simp [resetCore, hres]
  · rcases hobs : obsFirst obs with msg | t
    · simp [resetCore, hres, hobs]
    · rcases hadm : admFirst infos with msg | a <;> simp [resetCore, hres, hobs, hadm]

theorem handleReset_sess {ε : Type} (O : Oracle ε) (g : Graph) (F : Nat)
    (st : LoopState ε) (m : Msg) : (handleReset O g F st m).st.sess = st.sess := by
  rcases henv : st.sess.env with _ | eh
  · simp [handleReset, henv]
  · rcases hnar : resetNarrow g F st.sess st.vals m.game_file eh with _ | v'
    · simp [handleReset, henv, hnar]
    · simp [handleReset, henv, hnar, resetCore_sess]

theorem handleStep_sess {ε : Type} (O : Oracle ε) (st : LoopState ε) (m : Msg) :
    (handleStep O st m).st.sess = st.sess := by
  rcases henv : st.sess.env with _ | eh
  · simp [handleStep, henv]
  · rcases hres : O.doStep st.eng eh st.vals [m.action.getD "look"] with ⟨res, e'⟩
    rcases res with msg | ⟨obs, scores, dones, infos⟩
    · simp [handleStep, henv, hres]
    · rcases hobs : obsFirst obs with msg | t
      · simp [handleStep, henv, hres, hobs]
      · rcases hdone : batchFirst dones with msg | d
        · simp [handleStep, henv, hres, hobs, hdone]
        · rcases hsc : batchFirst scores with msg | sc
          · simp [handleStep, henv, hres, hobs, hdone, hsc]
          · rcases hadm : admFirst infos with msg | a <;>
              simp [handleStep, henv, hres, hobs, hdone, hsc, hadm]

theorem handleShutdown_sess {ε : Type} (O : Oracle ε) (st : LoopState ε) :
    (handleShutdown O st).st.sess = st.sess := by
  rcases henv : st.sess.env with _ | eh <;> simp [handleShutdown, henv]

/-- C8: the stored catalog equals the one produced by the most recent
successful `init` — as one invariant step: every handled line leaves
`game_files` at the previous catalog unless it is an `init` whose outcome
succeeds, in which case it becomes the enumerated files (failed `init`s
included: they keep the old catalog).  `list_tasks` answers exactly the
stored catalog, never errors, and leaves the whole state unchanged (hence
identical on repeated calls); `reset` only touches the engine-side task
attributes, never the stored catalog; and the catalog is empty at loop
start, before any `init`. -/
theorem c8_catalog_invariant {ε : Type} (O : Oracle ε) (g : Graph) (F : Nat)
    (st : LoopState ε) (l : InLine) :
    (handleLine O g F st l).st.sess.game_files = specCatalogAfter O st l ∧
    (∀ m, l = .obj m → m.cmd = some "list_tasks" →
      handleLine O g F st l = ⟨[.tasks st.sess.game_files], st, [], false⟩) ∧
    initSession.game_files = ([] : List String) := by
  refine ⟨?_, ?_, rfl⟩
  · cases l with
    | blank => rfl
    | badJson msg => rfl
    | obj m =>
      by_cases h1 : m.cmd = some "init"
      · rcases hdo : O.doInit st.eng m with ⟨r, e'⟩
        cases r <;>
          simp [handleLine, handleMsg, specCatalogAfter, h1, handleInit, hdo,
            InitOutcome.filesOf]
      · have hcat : specCatalogAfter O st (.obj m) = st.sess.game_files := by
          simp [specCatalogAfter, h1]
        rw [hcat]
        by_cases h2 : m.cmd = some "list_tasks"
        · simp [handleLine, handleMsg, h1, h2]
        · by_cases h3 : m.cmd = some "reset"
          · simp [handleLine, handleMsg, h1, h2, h3, handleReset_sess]
          · by_cases h4 : m.cmd = some "step"
            · simp [handleLine, handleMsg, h1, h2, h3, h4, handleStep_sess]
            · by_cases h5 : m.cmd = some "shutdown"
              · simp [handleLine, handleMsg, h1, h2, h3, h4, h5,
                  handleShutdown_sess]
              · simp [handleLine, handleMsg, h1, h2, h3, h4, h5]
  · intro m hl hm
    subst hl
    have h1 : m.cmd ≠ some "init" := by rw [hm]; decide
    simp [handleLine, handleMsg, h1, hm]

/-- Witness for C8: `list_tasks` on the initialized demo session returns
exactly the stored two-task catalog and leaves the state unchanged. -/
theorem c8_witness :
    handleLine demoOracle trivGraph 0 demoState (.obj { cmd := some "list_tasks" }) =
      ⟨[.tasks demoState.sess.game_files], demoState, [], false⟩ :=
  (c8_catalog_invariant demoOracle trivGraph 0 demoState
    (.obj { cmd := some "list_tasks" })).2.1 { cmd := some "list_tasks" } rfl rfl

/-- C9: the mock scenario init; reset; go to desk 1; take mug 1 from desk 1;
go to shelf 1; put mug 1 in/on shelf 1; shutdown produces, in order, the
ok/task_count 3 response, the canned reset response (whose `obs` starts
with "You are in the middle of a room", with done false and score 0), the
desk step (whose `obs` contains "mug 1", done false), the two navigation
steps, the final step with done true and score 1, and `{status: "ok"}` —
after which the loop terminates (any further input is never answered).
Any action outside the fixed script gets the default fallback response. -/
theorem c9_mock_scenario :
    mockRun c9Input =
      [.okCount 3,
       .resetResp INITIAL_OBS
         ["go to desk 1", "go to shelf 1", "go to drawer 1", "look", "inventory"]
         "Your task is to put a mug in shelf." false 0,
       .stepResp "On the desk 1, you see a mug 1 and a pen 1."
         ["take mug 1 from desk 1", "take pen 1 from desk 1", "go to shelf 1",
          "go to drawer 1"] false 0,
       .stepResp "You pick up the mug 1 from the desk 1."
         ["go to shelf 1", "go to drawer 1", "go to desk 1",
          "put mug 1 in/on shelf 1", "put mug 1 in/on drawer 1"] false 0,
       .stepResp "You arrive at shelf 1. On the shelf 1, you see nothing."
         ["put mug 1 in/on shelf 1", "go to desk 1", "go to drawer 1"] false 0,
       .stepResp "You put the mug 1 in/on the shelf 1." [] true 1,
       .statusOk] ∧
    "You are in the middle of a room" ++
        ". Looking quickly around you, you see a desk 1, a shelf 1, and a drawer 1.\nYour task is to put a mug in shelf." =
      INITIAL_OBS ∧
    "On the desk 1, you see a " ++ "mug 1" ++ " and a pen 1." =
      "On the desk 1, you see a mug 1 and a pen 1." ∧
    (∀ rest, mockRun (c9Input ++ rest) = mockRun c9Input) ∧
    (∀ a, STEP_RESPONSES a = none →
      mockHandle (.obj { cmd := some "step", action := some a }) =
        ([.stepResp "Nothing happens."
            ["go to desk 1", "go to shelf 1", "go to drawer 1", "look", "inventory"]
            false 0], false)) := by
  refine ⟨by decide, by decide, by decide, ?_, ?_⟩
  · intro rest
    rfl
  · intro a h
    simp [mockHandle, h, DEFAULT_STEP]

/-- Witness for C9's fallback clause at the unscripted action "fly". -/
theorem c9_witness :
    STEP_RESPONSES "fly" = none ∧
    mockHandle (.obj { cmd := some "step", action := some "fly" }) =
      ([.stepResp "Nothing happens."
          ["go to desk 1", "go to shelf 1", "go to drawer 1", "look", "inventory"]
          false 0], false) :=
  ⟨by decide, c9_mock_scenario.2.2.2.2 "fly" (by decide)⟩

end AlfBridge
